import Mathlib

/-!
Verification of the TCP transport client state machine of
`openvpn/transport/client/tcpcli.hpp` (namespace `openvpn::TCPTransport`).

The embedding models the `Client` object as a state record mirroring its
C++ fields (`halt`, the `impl` Link pointer's presence, and whether the
socket is open), and each member function as a Lean function returning the
successor state together with the ordered list of observable effects the
C++ body performs (Parent notifications, Stats records, socket/resolver
operations, and Link operations).  External oracles (whether the remote
list has a pre-resolved endpoint, the socket-protect hook's verdict, the
parent's protocol flag, and the configured sizes) live in `ClientConfig`,
mirroring `TCPTransport::ClientConfig` plus the queried collaborators.
-/

namespace TCPTransport

/-- Error kinds passed to `parent.transport_error` (subset of `Error::Type`
used in tcpcli.hpp). -/
inductive ErrKind where
  | UNDEF
  | TRANSPORT_ERROR
  deriving DecidableEq, Repr

/-- Error categories recorded on the stats object (`config->stats->error`)
in tcpcli.hpp. -/
inductive StatsKind where
  | NETWORK_EOF_ERROR
  | RESOLVE_ERROR
  | SOCKET_PROTECT_ERROR
  | TCP_CONNECT_ERROR
  deriving DecidableEq, Repr

/-- One observable side effect performed by a `Client` member function, in
program order.  Effects on the Session Parent, the Stats sink, the socket
and the resolver are distinguished from effects directed at the owned
Stream Link (`LinkImpl`). -/
inductive Effect where
  | preResolveNotify                         -- parent.transport_pre_resolve()
  | waitNotify                               -- parent.transport_wait()
  | holePunch                                -- parent.ip_hole_punch(...)
  | connectingNotify                         -- parent.transport_connecting()
  | errorNotify (kind : ErrKind)             -- parent.transport_error(kind, msg)
  | statsError (kind : StatsKind)            -- config->stats->error(kind)
  | getEndpoint                              -- remote_list->get_endpoint(...)
  | setEndpointList                          -- remote_list->set_endpoint_list(...)
  | sockOpen                                 -- socket.open(...)
  | sockClose                                -- socket.close()
  | setNoDelay                               -- socket.set_option(no_delay)
  | resolverCancel                           -- resolver.cancel()
  | resolveIssued                            -- resolver.async_resolve(...)
  | connectIssued                            -- socket.async_connect(...)
  | linkConstructed (sendq fl readbuf : Nat) -- impl.reset(new LinkImpl(this, socket, ...))
  | linkStart                                -- impl->start()
  | linkStop                                 -- impl->stop()
  | setRawMode                               -- impl->set_raw_mode(true)
  | linkSend                                 -- impl->send(buf)
  deriving DecidableEq, Repr

/-- Mirror of `TCPTransport::ClientConfig` together with the external
oracles a `Client` consults: `endpoint_available` is the verdict of
`remote_list->endpoint_available`, `socket_protect` says whether a
protection hook is configured (non-null pointer), `protect_ok` is the
hook's verdict, `is_openvpn_protocol` is
`parent.transport_is_openvpn_protocol()`, and `read_buf_size` stands for
`(*frame)[Frame::READ_LINK_TCP]`. -/
structure ClientConfig where
  send_queue_max_size : Nat
  free_list_max_size : Nat
  read_buf_size : Nat
  endpoint_available : Bool
  socket_protect : Bool
  protect_ok : Bool
  is_openvpn_protocol : Bool
  deriving DecidableEq, Repr

/-- The mutable fields of `TCPTransport::Client` relevant to its observable
behaviour: the `halt` flag, whether the Link pointer `impl` is non-null,
and whether the TCP socket is currently open. -/
structure ClientState where
  halt : Bool
  impl : Bool
  socketOpen : Bool
  deriving DecidableEq, Repr

/-- State established by the `Client` constructor: `halt(false)`, null
`impl`, freshly constructed (unopened) socket. -/
def initClient : ClientState :=
  { halt := false, impl := false, socketOpen := false }

/-- `Client::stop_()`: if not halted, set `halt`, stop the Link when one
exists, close the socket, cancel the resolver; otherwise do nothing. -/
def stop_ (s : ClientState) : ClientState × List Effect :=
  if s.halt = false then
    ({ halt := true, impl := s.impl, socketOpen := false },
      (if s.impl then [Effect.linkStop] else [])
        ++ [Effect.sockClose, Effect.resolverCancel])
  else
    (s, [])

/-- `Client::stop()`: delegates to `stop_()`. -/
def stop (s : ClientState) : ClientState × List Effect :=
  stop_ s

/-- `Client::~Client()`: the destructor delegates to `stop_()`. -/
def destruct (s : ClientState) : ClientState × List Effect :=
  stop_ s

/-- `Client::start_connect_()`: select the endpoint, notify the parent
(wait + hole punch), open the socket; when a protection hook is configured
and fails, record `SOCKET_PROTECT_ERROR`, run `stop()` and report
`Error::UNDEF` to the parent without connecting; otherwise set `no_delay`
and issue the asynchronous connect.  (In the C++ source the hook block is
compiled under `OPENVPN_PLATFORM_TYPE_UNIX`; an unconfigured hook is
`socket_protect = false`.) -/
def start_connect_ (cfg : ClientConfig) (s : ClientState) :
    ClientState × List Effect :=
  let pre := [Effect.getEndpoint, Effect.waitNotify, Effect.holePunch,
    Effect.sockOpen]
  let s1 : ClientState :=
    { halt := s.halt, impl := s.impl, socketOpen := true }
  if cfg.socket_protect && !cfg.protect_ok then
    let r := stop_ s1
    (r.1, pre ++ [Effect.statsError StatsKind.SOCKET_PROTECT_ERROR]
      ++ r.2 ++ [Effect.errorNotify ErrKind.UNDEF])
  else
    (s1, pre ++ [Effect.setNoDelay, Effect.connectIssued])

/-- `Client::transport_start()`: guarded only by `!impl`; resets
`halt = false`, then either skips resolution (endpoint available) and goes
straight to `start_connect_`, or notifies the parent of the upcoming
resolve and issues one asynchronous resolve. -/
def transport_start (cfg : ClientConfig) (s : ClientState) :
    ClientState × List Effect :=
  if s.impl = false then
    let s1 : ClientState :=
      { halt := false, impl := s.impl, socketOpen := s.socketOpen }
    if cfg.endpoint_available then
      start_connect_ cfg s1
    else
      (s1, [Effect.preResolveNotify, Effect.resolveIssued])
  else
    (s, [])

/-- `Client::do_resolve_(error, iterator)`: no-op when halted; on success
cache the endpoint list in the remote list and proceed to
`start_connect_`; on failure record `RESOLVE_ERROR`, `stop()`, and report
`Error::UNDEF` with descriptive text to the parent. -/
def do_resolve_ (cfg : ClientConfig) (s : ClientState) (err : Bool) :
    ClientState × List Effect :=
  if s.halt = false then
    if err = false then
      let r := start_connect_ cfg s
      (r.1, Effect.setEndpointList :: r.2)
    else
      let r := stop_ s
      (r.1, Effect.statsError StatsKind.RESOLVE_ERROR
        :: r.2 ++ [Effect.errorNotify ErrKind.UNDEF])
  else
    (s, [])

/-- `Client::start_impl_(error)`: no-op when halted; on success construct
the `LinkImpl` with the configured queue capacity, free-list cap and read
buffer context, start it, switch to raw mode when the parent does not use
the OpenVPN protocol, and notify the parent of connecting; on failure
record `TCP_CONNECT_ERROR`, `stop()`, and report `Error::UNDEF`. -/
def start_impl_ (cfg : ClientConfig) (s : ClientState) (err : Bool) :
    ClientState × List Effect :=
  if s.halt = false then
    if err = false then
      ({ halt := s.halt, impl := true, socketOpen := s.socketOpen },
        [Effect.linkConstructed cfg.send_queue_max_size
            cfg.free_list_max_size cfg.read_buf_size,
          Effect.linkStart]
          ++ (if cfg.is_openvpn_protocol then [] else [Effect.setRawMode])
          ++ [Effect.connectingNotify])
    else
      let r := stop_ s
      (r.1, Effect.statsError StatsKind.TCP_CONNECT_ERROR
        :: r.2 ++ [Effect.errorNotify ErrKind.UNDEF])
  else
    (s, [])

/-- `Client::send(buf)`: delegate to `impl->send` when a Link exists
(`linkResult` is the Link's verdict), otherwise return `false` without any
side effect. -/
def send (s : ClientState) (linkResult : Bool) : Bool × List Effect :=
  if s.impl then (linkResult, [Effect.linkSend]) else (false, [])

/-- `Client::send_const(cbuf)`: copy the buffer and delegate to
`impl->send` when a Link exists, otherwise return `false`. -/
def send_const (s : ClientState) (linkResult : Bool) : Bool × List Effect :=
  if s.impl then (linkResult, [Effect.linkSend]) else (false, [])

/-- `Client::transport_send_queue_empty()`: delegate to
`impl->send_queue_empty()` when a Link exists, otherwise report `false`. -/
def transport_send_queue_empty (s : ClientState) (linkResult : Bool) :
    Bool :=
  if s.impl then linkResult else false

/-- The operations and completion events that can be invoked on a `Client`
after construction. -/
inductive Event where
  | start
  | stop
  | resolveDone (err : Bool)
  | connectDone (err : Bool)
  | sendEv (linkResult : Bool)
  | sendConstEv (linkResult : Bool)
  deriving DecidableEq, Repr

/-- One step of the `Client`: dispatch an event to the member function it
denotes, returning the successor state and the effects performed. -/
def step (cfg : ClientConfig) (s : ClientState) : Event → ClientState × List Effect
  | Event.start => transport_start cfg s
  | Event.stop => stop s
  | Event.resolveDone err => do_resolve_ cfg s err
  | Event.connectDone err => start_impl_ cfg s err
  | Event.sendEv r => (s, (send s r).2)
  | Event.sendConstEv r => (s, (send_const s r).2)

/-- Run a sequence of events, concatenating the effects in order. -/
def runEvents (cfg : ClientConfig) : ClientState → List Event → ClientState × List Effect
  | s, [] => (s, [])
  | s, e :: es =>
    let r := step cfg s e
    let r2 := runEvents cfg r.1 es
    (r2.1, r.2 ++ r2.2)

/-- Number of effects in `l` satisfying `p`. -/
def countEff (p : Effect → Bool) (l : List Effect) : Nat :=
  (l.filter p).length

/-- Recognizer for `resolver.async_resolve` effects. -/
def isResolveIssued : Effect → Bool
  | Effect.resolveIssued => true
  | _ => false

/-- Recognizer for `socket.async_connect` effects. -/
def isConnectIssued : Effect → Bool
  | Effect.connectIssued => true
  | _ => false

/-- Recognizer for stats records of a given kind. -/
def isStatsK (k : StatsKind) : Effect → Bool
  | Effect.statsError k2 => k2 == k
  | _ => false

/-- Recognizer for `parent.transport_error` notifications. -/
def isErrNotify : Effect → Bool
  | Effect.errorNotify _ => true
  | _ => false

/-- Recognizer for Link constructions. -/
def isLinkConstructed : Effect → Bool
  | Effect.linkConstructed _ _ _ => true
  | _ => false

/-- Recognizer for `impl->start()` effects. -/
def isLinkStart : Effect → Bool
  | Effect.linkStart => true
  | _ => false

/-- Recognizer for `parent.transport_connecting` notifications. -/
def isConnectingNotify : Effect → Bool
  | Effect.connectingNotify => true
  | _ => false

/-- Recognizer for delegated `impl->send` calls. -/
def isLinkSend : Effect → Bool
  | Effect.linkSend => true
  | _ => false

/-- `a` occurs strictly before `b` in the effect list `l`. -/
def effBefore (a b : Effect) (l : List Effect) : Prop :=
  ∃ l1 l2 l3, l = l1 ++ a :: l2 ++ b :: l3

/-- A concrete configuration with the `ClientConfig` constructor defaults
(queue capacity 1024, free-list cap 8, no protection hook). -/
def cfg0 : ClientConfig :=
  { send_queue_max_size := 1024, free_list_max_size := 8,
    read_buf_size := 2048, endpoint_available := false,
    socket_protect := false, protect_ok := true,
    is_openvpn_protocol := true }

/-- A concrete halted client that never connected. -/
def haltedClient : ClientState :=
  { halt := true, impl := false, socketOpen := false }

/-- A concrete configuration with a configured protection hook that
reports failure, and a pre-resolved endpoint available. -/
def cfgProt : ClientConfig :=
  { send_queue_max_size := 1024, free_list_max_size := 8,
    read_buf_size := 2048, endpoint_available := true,
    socket_protect := true, protect_ok := false,
    is_openvpn_protocol := true }

/-! ### Helper lemmas -/

lemma runEvents_cons (cfg : ClientConfig) (s : ClientState) (e : Event)
    (es : List Event) :
    runEvents cfg s (e :: es)
      = ((runEvents cfg (step cfg s e).1 es).1,
         (step cfg s e).2 ++ (runEvents cfg (step cfg s e).1 es).2) := rfl

lemma countEff_append (p : Effect → Bool) (l1 l2 : List Effect) :
    countEff p (l1 ++ l2) = countEff p l1 + countEff p l2 := by
  simp [countEff, List.filter_append]

lemma countEff_eq_zero (p : Effect → Bool) (l : List Effect)
    (h : ∀ x ∈ l, p x = false) : countEff p l = 0 := by
  simp only [countEff, List.length_eq_zero, List.filter_eq_nil_iff]
  intro a ha
  simp [h a ha]

lemma stop_halt (s : ClientState) : (stop_ s).1.halt = true := by
  by_cases h : s.halt = false <;> simp_all [stop_]

lemma stop_of_halted (s : ClientState) (h : s.halt = true) :
    stop_ s = (s, []) := by
  simp [stop_, h]

/-- Once halted, every event other than `start` leaves the state unchanged
and performs at most delegated `impl->send` calls (no Parent, Stats,
socket or resolver effect). -/
lemma step_halted_quiet (cfg : ClientConfig) (s : ClientState)
    (h : s.halt = true) (e : Event) (he : e ≠ Event.start) :
    (step cfg s e).1 = s ∧ ∀ x ∈ (step cfg s e).2, x = Effect.linkSend := by
  cases e with
  | start => exact absurd rfl he
  | stop => simp [step, stop, stop_of_halted s h]
  | resolveDone err => simp [step, do_resolve_, h]
  | connectDone err => simp [step, start_impl_, h]
  | sendEv r =>
    by_cases hi : s.impl <;> simp [step, send, hi]
  | sendConstEv r =>
    by_cases hi : s.impl <;> simp [step, send_const, hi]

/-- Trace version of `step_halted_quiet`: a halted client stays put and
stays externally silent under any event sequence containing no `start`. -/
lemma runEvents_halted_quiet (cfg : ClientConfig) (es : List Event) :
    ∀ s : ClientState, s.halt = true → (∀ e ∈ es, e ≠ Event.start) →
      (runEvents cfg s es).1 = s ∧
        ∀ x ∈ (runEvents cfg s es).2, x = Effect.linkSend := by
  induction es with
  | nil => intro s _ _; simp [runEvents]
  | cons e es ih =>
    intro s h hes
    obtain ⟨h1, h2⟩ := step_halted_quiet cfg s h e (hes e (by simp))
    have hes' : ∀ e' ∈ es, e' ≠ Event.start := fun e' he' =>
      hes e' (List.mem_cons_of_mem _ he')
    obtain ⟨h3, h4⟩ := ih s h hes'
    constructor
    · simp only [runEvents]
      rw [h1, h3]
    · intro x hx
      simp only [runEvents] at hx
      rw [h1] at hx
      rcases List.mem_append.mp hx with hx1 | hx2
      · exact h2 x hx1
      · exact h4 x hx2

lemma start_connect_no_resolve (cfg : ClientConfig) (s : ClientState) :
    countEff isResolveIssued (start_connect_ cfg s).2 = 0 := by
  by_cases hp : (cfg.socket_protect && !cfg.protect_ok) = true <;>
    by_cases hh : s.halt = false <;>
      simp [start_connect_, stop_, hp, hh, countEff, isResolveIssued]

lemma stop_no_resolve (s : ClientState) :
    countEff isResolveIssued (stop_ s).2 = 0 := by
  by_cases hh : s.halt = false <;> by_cases hi : s.impl <;>
    simp [stop_, hh, hi, countEff, isResolveIssued]

/-- No event other than `start` ever issues a resolve. -/
lemma step_no_resolve (cfg : ClientConfig) (s : ClientState) (e : Event)
    (he : e ≠ Event.start) :
    countEff isResolveIssued (step cfg s e).2 = 0 := by
  cases e with
  | start => exact absurd rfl he
  | stop =>
    simpa [step, stop] using stop_no_resolve s
  | resolveDone err =>
    by_cases hh : s.halt = false
    · cases err with
      | false =>
        have := start_connect_no_resolve cfg s
        simp [step, do_resolve_, hh, countEff, isResolveIssued,
          List.filter_append] at this ⊢
        simpa [countEff, List.filter_append] using this
      | true =>
        have := stop_no_resolve s
        simp [step, do_resolve_, hh, countEff, isResolveIssued,
          List.filter_append] at this ⊢
        simpa [countEff, List.filter_append] using this
    · simp [step, do_resolve_, hh, countEff]
  | connectDone err =>
    by_cases hh : s.halt = false
    · cases err with
      | false =>
        by_cases ho : cfg.is_openvpn_protocol <;>
          simp [step, start_impl_, hh, ho, countEff, isResolveIssued,
            List.filter_append]
      | true =>
        have := stop_no_resolve s
        simp [step, start_impl_, hh, countEff, isResolveIssued,
          List.filter_append] at this ⊢
        simpa [countEff, List.filter_append] using this
    · simp [step, start_impl_, hh, countEff]
  | sendEv r =>
    by_cases hi : s.impl <;>
      simp [step, send, hi, countEff, isResolveIssued]
  | sendConstEv r =>
    by_cases hi : s.impl <;>
      simp [step, send_const, hi, countEff, isResolveIssued]

/-- A trace containing no `start` event never issues a resolve. -/
lemma runEvents_no_resolve (cfg : ClientConfig) (es : List Event) :
    ∀ s : ClientState, (∀ e ∈ es, e ≠ Event.start) →
      countEff isResolveIssued (runEvents cfg s es).2 = 0 := by
  induction es with
  | nil => intro s _; simp [runEvents, countEff]
  | cons e es ih =>
    intro s hes
    have h1 := step_no_resolve cfg s e (hes e (by simp))
    have h2 := ih (step cfg s e).1 (fun e' he' =>
      hes e' (List.mem_cons_of_mem _ he'))
    simp only [runEvents]
    rw [countEff_append, h1, h2]

lemma runEvents_stop_halted (cfg : ClientConfig) (m : Nat) (s : ClientState)
    (h : s.halt = true) :
    runEvents cfg s (List.replicate m Event.stop) = (s, []) := by
  induction m with
  | zero => simp [runEvents]
  | succ k ih =>
    simp [List.replicate_succ, runEvents, step, stop, stop_of_halted s h, ih]

/-! ### Claims -/

/-- Claim C1 (counterexample): after `stop()` has set the halted flag, a
later `start()` is not a no-op — on a concrete never-connected client it
flips `halt` back to `false` (a state transition) and performs a Parent
pre-resolve notification plus a resolver invocation (callback side
effects). -/
theorem C1_counterexample :
    (runEvents cfg0 initClient [Event.stop]).1.halt = true ∧
    step cfg0 (runEvents cfg0 initClient [Event.stop]).1 Event.start
      = ({ halt := false, impl := false, socketOpen := false },
         [Effect.preResolveNotify, Effect.resolveIssued]) := by
  decide

/-- Claim C1 (amended): once halted, every subsequently invoked operation
or completion handler other than `start()` causes no state transition and
no side effect on the Parent, Stats Sink, socket or resolver (a send on a
still-present Link only delegates to that Link); a later `start()` on a
halted Client without a Link, however, is not a no-op: it clears the
halted flag and re-runs the resolve/connect sequence with its side
effects. -/
theorem C1_halted_quiet_except_start (cfg : ClientConfig) (s : ClientState)
    (es : List Event) (h : s.halt = true)
    (hes : ∀ e ∈ es, e ≠ Event.start) :
    ((runEvents cfg s es).1 = s ∧
      (∀ x ∈ (runEvents cfg s es).2, x = Effect.linkSend)) ∧
    (s.impl = false → (transport_start cfg s).2 ≠ []) := by
  refine ⟨runEvents_halted_quiet cfg es s h hes, ?_⟩
  intro hi
  by_cases ha : cfg.endpoint_available <;>
    by_cases hp : (cfg.socket_protect && !cfg.protect_ok) = true <;>
      simp [transport_start, start_connect_, stop_, hi, ha, hp]

/-- Witness for C1 (amended) on a concrete halted client and a concrete
event sequence. -/
theorem C1_amended_witness :
    haltedClient.halt = true ∧
    (∀ e ∈ ([Event.stop, Event.resolveDone true, Event.connectDone false,
        Event.sendEv true] : List Event), e ≠ Event.start) ∧
    (((runEvents cfg0 haltedClient [Event.stop, Event.resolveDone true,
          Event.connectDone false, Event.sendEv true]).1 = haltedClient ∧
        (∀ x ∈ (runEvents cfg0 haltedClient [Event.stop,
            Event.resolveDone true, Event.connectDone false,
            Event.sendEv true]).2, x = Effect.linkSend)) ∧
      (haltedClient.impl = false →
        (transport_start cfg0 haltedClient).2 ≠ [])) :=
  ⟨rfl, by decide,
    C1_halted_quiet_except_start cfg0 haltedClient _ rfl (by decide)⟩

/-- Claim C2: `stop()` is idempotent — from any client state, `n ≥ 1`
consecutive calls produce exactly the state and observable side effects of
a single call. -/
theorem C2_stop_idempotent (cfg : ClientConfig) (s : ClientState) (n : Nat)
    (h : 1 ≤ n) :
    runEvents cfg s (List.replicate n Event.stop)
      = runEvents cfg s [Event.stop] := by
  obtain ⟨m, rfl⟩ : ∃ m, n = m + 1 := ⟨n - 1, by omega⟩
  rw [List.replicate_succ, runEvents_cons]
  have hh : (step cfg s Event.stop).1.halt = true := by
    simpa [step, stop] using stop_halt s
  rw [runEvents_stop_halted cfg m _ hh]
  simp [runEvents]

/-- Witness for C2: three consecutive stops on a fresh client equal a
single stop. -/
theorem C2_witness :
    1 ≤ 3 ∧
    runEvents cfg0 initClient (List.replicate 3 Event.stop)
      = runEvents cfg0 initClient [Event.stop] :=
  ⟨by decide, C2_stop_idempotent cfg0 initClient 3 (by decide)⟩

/-- Claim C3: a resolve or connect completion arriving on a halted client
is a no-op — no Parent notification, no stats record, no state change
(neither the success nor the failure branch is reached). -/
theorem C3_late_completion_noop (cfg : ClientConfig) (s : ClientState)
    (h : s.halt = true) (err : Bool) :
    do_resolve_ cfg s err = (s, []) ∧ start_impl_ cfg s err = (s, []) := by
  simp [do_resolve_, start_impl_, h]

/-- Witness for C3 on a concrete halted client. -/
theorem C3_witness :
    haltedClient.halt = true ∧
    (do_resolve_ cfg0 haltedClient true = (haltedClient, []) ∧
      start_impl_ cfg0 haltedClient true = (haltedClient, [])) :=
  ⟨rfl, C3_late_completion_noop cfg0 haltedClient rfl true⟩

/-- Claim C9: with no Link, `send`, `send_const` return `false` with no
side effect and `transport_send_queue_empty` reports `false` (not empty);
with a Link, each delegates and returns the Link's result. -/
theorem C9_send_delegation (s : ClientState) (r : Bool) :
    (s.impl = false →
      send s r = (false, []) ∧ send_const s r = (false, []) ∧
      transport_send_queue_empty s r = false) ∧
    (s.impl = true →
      (send s r).1 = r ∧ (send_const s r).1 = r ∧
      transport_send_queue_empty s r = r) := by
  constructor <;> intro h <;>
    simp [send, send_const, transport_send_queue_empty, h]

/-- Witness for C9 on the initial (Link-less) client. -/
theorem C9_witness :
    (initClient.impl = false →
      send initClient true = (false, []) ∧
      send_const initClient true = (false, []) ∧
      transport_send_queue_empty initClient true = false) ∧
    (initClient.impl = true →
      (send initClient true).1 = true ∧
      (send_const initClient true).1 = true ∧
      transport_send_queue_empty initClient true = true) :=
  C9_send_delegation initClient true

/-- Claim C10: the destructor performs exactly the teardown of an explicit
`stop()` — same successor state and effects from every state, leaving the
client halted; when not yet halted it stops the Link (if present), closes
the socket and cancels the resolver; when already stopped it has no
additional side effect. -/
theorem C10_destructor_equals_stop (s : ClientState) :
    destruct s = stop s ∧
    (destruct s).1.halt = true ∧
    (s.halt = false →
      (destruct s).2 =
        (if s.impl then [Effect.linkStop] else [])
          ++ [Effect.sockClose, Effect.resolverCancel]) ∧
    (s.halt = true → destruct s = (s, [])) := by
  refine ⟨rfl, ?_, ?_, ?_⟩
  · simpa [destruct] using stop_halt s
  · intro h
    simp [destruct, stop_, h]
  · intro h
    simpa [destruct] using stop_of_halted s h

/-- Witness for C10 on a concrete fresh client. -/
theorem C10_witness :
    destruct initClient = stop initClient ∧
    (destruct initClient).1.halt = true ∧
    (initClient.halt = false →
      (destruct initClient).2 =
        (if initClient.impl then [Effect.linkStop] else [])
          ++ [Effect.sockClose, Effect.resolverCancel]) ∧
    (initClient.halt = true → destruct initClient = (initClient, [])) :=
  C10_destructor_equals_stop initClient

/-- Claim C4: on a single `start()` from the initial state, a ready
endpoint means no resolve is ever issued; otherwise the start performs
exactly the Parent pre-resolve notification followed by one resolver
invocation, and no further resolve is ever issued afterwards (so every
connect attempt comes after that single resolve). -/
theorem C4_single_resolve (cfg : ClientConfig) (rest : List Event)
    (hrest : ∀ e ∈ rest, e ≠ Event.start) :
    (cfg.endpoint_available = true →
      countEff isResolveIssued
        (runEvents cfg initClient (Event.start :: rest)).2 = 0) ∧
    (cfg.endpoint_available = false →
      ∃ tail,
        (runEvents cfg initClient (Event.start :: rest)).2
          = Effect.preResolveNotify :: Effect.resolveIssued :: tail ∧
        countEff isResolveIssued tail = 0) := by
  constructor
  · intro ha
    have h1 : step cfg initClient Event.start
        = start_connect_ cfg initClient := by
      simp [step, transport_start, initClient, ha]
    rw [runEvents_cons]
    simp only [countEff_append, h1]
    rw [start_connect_no_resolve cfg initClient,
      runEvents_no_resolve cfg rest _ hrest]
  · intro ha
    have h1 : step cfg initClient Event.start
        = (initClient, [Effect.preResolveNotify, Effect.resolveIssued]) := by
      simp [step, transport_start, initClient, ha]
    rw [runEvents_cons, h1]
    exact ⟨(runEvents cfg initClient rest).2, by simp,
      runEvents_no_resolve cfg rest initClient hrest⟩

/-- Witness for C4: start on a config with no ready endpoint, followed by
a successful resolve completion. -/
theorem C4_witness :
    (∀ e ∈ ([Event.resolveDone false] : List Event), e ≠ Event.start) ∧
    ((cfg0.endpoint_available = true →
        countEff isResolveIssued
          (runEvents cfg0 initClient
            (Event.start :: [Event.resolveDone false])).2 = 0) ∧
      (cfg0.endpoint_available = false →
        ∃ tail,
          (runEvents cfg0 initClient
              (Event.start :: [Event.resolveDone false])).2
            = Effect.preResolveNotify :: Effect.resolveIssued :: tail ∧
          countEff isResolveIssued tail = 0)) :=
  ⟨by decide, C4_single_resolve cfg0 [Event.resolveDone false] (by decide)⟩

/-- Claim C5: when the configured protection hook fails on the freshly
opened socket, exactly one `SOCKET_PROTECT_ERROR` stats record and exactly
one Parent error notification (kind `UNDEF`) are made, no connect is ever
issued, the client halts, and the socket close (the `stop()` teardown)
happens before the error is reported. -/
theorem C5_protect_hook_failure (cfg : ClientConfig) (s : ClientState)
    (rest : List Event)
    (hh : s.halt = false) (hi : s.impl = false)
    (hp : cfg.socket_protect = true) (hf : cfg.protect_ok = false)
    (hrest : ∀ e ∈ rest, e ≠ Event.start) :
    countEff (isStatsK StatsKind.SOCKET_PROTECT_ERROR)
      (start_connect_ cfg s).2 = 1 ∧
    countEff isErrNotify (start_connect_ cfg s).2 = 1 ∧
    Effect.errorNotify ErrKind.UNDEF ∈ (start_connect_ cfg s).2 ∧
    countEff isConnectIssued (start_connect_ cfg s).2 = 0 ∧
    (start_connect_ cfg s).1.halt = true ∧
    (start_connect_ cfg s).1.socketOpen = false ∧
    effBefore Effect.sockClose (Effect.errorNotify ErrKind.UNDEF)
      (start_connect_ cfg s).2 ∧
    (∀ x ∈ (runEvents cfg (start_connect_ cfg s).1 rest).2,
      x = Effect.linkSend) := by
  have hr : start_connect_ cfg s
      = ({ halt := true, impl := false, socketOpen := false },
         [Effect.getEndpoint, Effect.waitNotify, Effect.holePunch,
          Effect.sockOpen,
          Effect.statsError StatsKind.SOCKET_PROTECT_ERROR,
          Effect.sockClose, Effect.resolverCancel,
          Effect.errorNotify ErrKind.UNDEF]) := by
    simp [start_connect_, stop_, hh, hi, hp, hf]
  rw [hr]
  refine ⟨by decide, by decide, by decide, by decide, rfl, rfl,
    ⟨[Effect.getEndpoint, Effect.waitNotify, Effect.holePunch,
        Effect.sockOpen, Effect.statsError StatsKind.SOCKET_PROTECT_ERROR],
      [Effect.resolverCancel], [], rfl⟩, ?_⟩
  exact (runEvents_halted_quiet cfg rest _ rfl hrest).2

/-- Witness for C5: a fresh client under the failing-hook config, followed
by a late connect completion. -/
theorem C5_witness :
    initClient.halt = false ∧ initClient.impl = false ∧
    cfgProt.socket_protect = true ∧ cfgProt.protect_ok = false ∧
    (∀ e ∈ ([Event.connectDone false] : List Event), e ≠ Event.start) ∧
    (countEff (isStatsK StatsKind.SOCKET_PROTECT_ERROR)
        (start_connect_ cfgProt initClient).2 = 1 ∧
      countEff isErrNotify (start_connect_ cfgProt initClient).2 = 1 ∧
      Effect.errorNotify ErrKind.UNDEF
        ∈ (start_connect_ cfgProt initClient).2 ∧
      countEff isConnectIssued (start_connect_ cfgProt initClient).2 = 0 ∧
      (start_connect_ cfgProt initClient).1.halt = true ∧
      (start_connect_ cfgProt initClient).1.socketOpen = false ∧
      effBefore Effect.sockClose (Effect.errorNotify ErrKind.UNDEF)
        (start_connect_ cfgProt initClient).2 ∧
      (∀ x ∈ (runEvents cfgProt (start_connect_ cfgProt initClient).1
          [Event.connectDone false]).2, x = Effect.linkSend)) :=
  ⟨rfl, rfl, rfl, rfl, by decide,
    C5_protect_hook_failure cfgProt initClient [Event.connectDone false]
      rfl rfl rfl rfl (by decide)⟩

/-- Claim C6: a resolve completion with an error on a non-halted client
records exactly one `RESOLVE_ERROR` stat, delivers exactly one Parent
error notification of kind `UNDEF`, halts the client, and no connect is
issued then or ever afterwards. -/
theorem C6_resolve_failure (cfg : ClientConfig) (s : ClientState)
    (rest : List Event)
    (hh : s.halt = false) (hi : s.impl = false)
    (hrest : ∀ e ∈ rest, e ≠ Event.start) :
    countEff (isStatsK StatsKind.RESOLVE_ERROR)
      (do_resolve_ cfg s true).2 = 1 ∧
    countEff isErrNotify (do_resolve_ cfg s true).2 = 1 ∧
    Effect.errorNotify ErrKind.UNDEF ∈ (do_resolve_ cfg s true).2 ∧
    (do_resolve_ cfg s true).1.halt = true ∧
    countEff isConnectIssued (do_resolve_ cfg s true).2 = 0 ∧
    countEff isConnectIssued
      (runEvents cfg (do_resolve_ cfg s true).1 rest).2 = 0 := by
  have hr : do_resolve_ cfg s true
      = ({ halt := true, impl := false, socketOpen := false },
         [Effect.statsError StatsKind.RESOLVE_ERROR, Effect.sockClose,
          Effect.resolverCancel, Effect.errorNotify ErrKind.UNDEF]) := by
    simp [do_resolve_, stop_, hh, hi]
  rw [hr]
  refine ⟨by decide, by decide, by decide, rfl, by decide, ?_⟩
  have hq := (runEvents_halted_quiet cfg rest
    ({ halt := true, impl := false, socketOpen := false }) rfl hrest).2
  exact countEff_eq_zero _ _ (fun x hx => by rw [hq x hx]; rfl)

/-- Witness for C6 on a fresh client, followed by a stop. -/
theorem C6_witness :
    initClient.halt = false ∧ initClient.impl = false ∧
    (∀ e ∈ ([Event.stop] : List Event), e ≠ Event.start) ∧
    (countEff (isStatsK StatsKind.RESOLVE_ERROR)
        (do_resolve_ cfg0 initClient true).2 = 1 ∧
      countEff isErrNotify (do_resolve_ cfg0 initClient true).2 = 1 ∧
      Effect.errorNotify ErrKind.UNDEF ∈ (do_resolve_ cfg0 initClient true).2 ∧
      (do_resolve_ cfg0 initClient true).1.halt = true ∧
      countEff isConnectIssued (do_resolve_ cfg0 initClient true).2 = 0 ∧
      countEff isConnectIssued
        (runEvents cfg0 (do_resolve_ cfg0 initClient true).1
          [Event.stop]).2 = 0) :=
  ⟨rfl, rfl, by decide,
    C6_resolve_failure cfg0 initClient [Event.stop] rfl rfl (by decide)⟩

/-- Claim C7: a connect completion with an error on a non-halted client
records exactly one `TCP_CONNECT_ERROR` stat, delivers exactly one Parent
error notification of kind `UNDEF`, halts the client, and no Stream Link
is constructed then or ever afterwards. -/
theorem C7_connect_failure (cfg : ClientConfig) (s : ClientState)
    (rest : List Event)
    (hh : s.halt = false) (hi : s.impl = false)
    (hrest : ∀ e ∈ rest, e ≠ Event.start) :
    countEff (isStatsK StatsKind.TCP_CONNECT_ERROR)
      (start_impl_ cfg s true).2 = 1 ∧
    countEff isErrNotify (start_impl_ cfg s true).2 = 1 ∧
    Effect.errorNotify ErrKind.UNDEF ∈ (start_impl_ cfg s true).2 ∧
    (start_impl_ cfg s true).1.halt = true ∧
    countEff isLinkConstructed (start_impl_ cfg s true).2 = 0 ∧
    (start_impl_ cfg s true).1.impl = false ∧
    countEff isLinkConstructed
      (runEvents cfg (start_impl_ cfg s true).1 rest).2 = 0 ∧
    (runEvents cfg (start_impl_ cfg s true).1 rest).1.impl = false := by
  have hr : start_impl_ cfg s true
      = ({ halt := true, impl := false, socketOpen := false },
         [Effect.statsError StatsKind.TCP_CONNECT_ERROR, Effect.sockClose,
          Effect.resolverCancel, Effect.errorNotify ErrKind.UNDEF]) := by
    simp [start_impl_, stop_, hh, hi]
  rw [hr]
  obtain ⟨hq1, hq2⟩ := runEvents_halted_quiet cfg rest
    ({ halt := true, impl := false, socketOpen := false }) rfl hrest
  refine ⟨by decide, by decide, by decide, rfl, by decide, rfl, ?_, ?_⟩
  · exact countEff_eq_zero _ _ (fun x hx => by rw [hq2 x hx]; rfl)
  · rw [hq1]

/-- Witness for C7 on a fresh client, followed by a stop. -/
theorem C7_witness :
    initClient.halt = false ∧ initClient.impl = false ∧
    (∀ e ∈ ([Event.stop] : List Event), e ≠ Event.start) ∧
    (countEff (isStatsK StatsKind.TCP_CONNECT_ERROR)
        (start_impl_ cfg0 initClient true).2 = 1 ∧
      countEff isErrNotify (start_impl_ cfg0 initClient true).2 = 1 ∧
      Effect.errorNotify ErrKind.UNDEF ∈ (start_impl_ cfg0 initClient true).2 ∧
      (start_impl_ cfg0 initClient true).1.halt = true ∧
      countEff isLinkConstructed (start_impl_ cfg0 initClient true).2 = 0 ∧
      (start_impl_ cfg0 initClient true).1.impl = false ∧
      countEff isLinkConstructed
        (runEvents cfg0 (start_impl_ cfg0 initClient true).1
          [Event.stop]).2 = 0 ∧
      (runEvents cfg0 (start_impl_ cfg0 initClient true).1
        [Event.stop]).1.impl = false) :=
  ⟨rfl, rfl, by decide,
    C7_connect_failure cfg0 initClient [Event.stop] rfl rfl (by decide)⟩

/-- Claim C8: a successful connect completion on a non-halted client
constructs exactly one Stream Link, carrying the Config's send-queue
capacity, free-list cap and read-buffer size, starts it (construction
before start), enables raw mode exactly when the parent does not use the
OpenVPN protocol, and delivers exactly one connecting notification. -/
theorem C8_connect_success (cfg : ClientConfig) (s : ClientState)
    (hh : s.halt = false) :
    countEff isLinkConstructed (start_impl_ cfg s false).2 = 1 ∧
    Effect.linkConstructed cfg.send_queue_max_size cfg.free_list_max_size
      cfg.read_buf_size ∈ (start_impl_ cfg s false).2 ∧
    countEff isLinkStart (start_impl_ cfg s false).2 = 1 ∧
    countEff isConnectingNotify (start_impl_ cfg s false).2 = 1 ∧
    (Effect.setRawMode ∈ (start_impl_ cfg s false).2
      ↔ cfg.is_openvpn_protocol = false) ∧
    effBefore
      (Effect.linkConstructed cfg.send_queue_max_size
        cfg.free_list_max_size cfg.read_buf_size)
      Effect.linkStart (start_impl_ cfg s false).2 ∧
    (start_impl_ cfg s false).1.impl = true := by
  by_cases ho : cfg.is_openvpn_protocol
  · have hr : start_impl_ cfg s false
        = ({ halt := s.halt, impl := true, socketOpen := s.socketOpen },
           [Effect.linkConstructed cfg.send_queue_max_size
              cfg.free_list_max_size cfg.read_buf_size,
            Effect.linkStart, Effect.connectingNotify]) := by
      simp [start_impl_, hh, ho]
    rw [hr]
    refine ⟨?_, ?_, ?_, ?_, ?_, ⟨[], [], [Effect.connectingNotify], rfl⟩, rfl⟩
    · simp [countEff, isLinkConstructed, isLinkStart, isConnectingNotify]
    · simp
    · simp [countEff, isLinkConstructed, isLinkStart, isConnectingNotify]
    · simp [countEff, isLinkConstructed, isLinkStart, isConnectingNotify]
    · simp [ho]
  · have hr : start_impl_ cfg s false
        = ({ halt := s.halt, impl := true, socketOpen := s.socketOpen },
           [Effect.linkConstructed cfg.send_queue_max_size
              cfg.free_list_max_size cfg.read_buf_size,
            Effect.linkStart, Effect.setRawMode,
            Effect.connectingNotify]) := by
      simp [start_impl_, hh, ho]
    rw [hr]
    refine ⟨?_, ?_, ?_, ?_, ?_,
      ⟨[], [], [Effect.setRawMode, Effect.connectingNotify], rfl⟩, rfl⟩
    · simp [countEff, isLinkConstructed, isLinkStart, isConnectingNotify]
    · simp
    · simp [countEff, isLinkConstructed, isLinkStart, isConnectingNotify]
    · simp [countEff, isLinkConstructed, isLinkStart, isConnectingNotify]
    · simp at ho
      simp [ho]

/-- Witness for C8 on a fresh client under the default config. -/
theorem C8_witness :
    initClient.halt = false ∧
    (countEff isLinkConstructed (start_impl_ cfg0 initClient false).2 = 1 ∧
      Effect.linkConstructed cfg0.send_queue_max_size
        cfg0.free_list_max_size cfg0.read_buf_size
        ∈ (start_impl_ cfg0 initClient false).2 ∧
      countEff isLinkStart (start_impl_ cfg0 initClient false).2 = 1 ∧
      countEff isConnectingNotify (start_impl_ cfg0 initClient false).2 = 1 ∧
      (Effect.setRawMode ∈ (start_impl_ cfg0 initClient false).2
        ↔ cfg0.is_openvpn_protocol = false) ∧
      effBefore
        (Effect.linkConstructed cfg0.send_queue_max_size
          cfg0.free_list_max_size cfg0.read_buf_size)
        Effect.linkStart (start_impl_ cfg0 initClient false).2 ∧
      (start_impl_ cfg0 initClient false).1.impl = true) :=
  ⟨rfl, C8_connect_success cfg0 initClient rfl⟩

end TCPTransport
